import Mathlib

/-!
Verification development for a Telegram project-management bot
(single source file main.py).  The bot keeps projects, users
(membership rows), per-project role catalogs and tasks in a SQLite
database; a scheduler scans for tasks nearing their deadline.

The embedding below mirrors the SQLite tables as lists of rows kept in
insertion (rowid) order, which is the order in which an unordered
SELECT returns rows and hence the row fetchone() yields first.  SQLite
INTEGER PRIMARY KEY columns are modelled by monotone counters in the
database state.  DATETIME values are stored by the program as
strings of the sortable form YYYY-MM-DD HH:MM:SS, whose lexicographic
order coincides with chronological order; they are modelled as natural
numbers counting seconds.  SQL equality against a non-NULL value never
matches a NULL column, which is modelled by sqlEqN below.
-/

/-- Row of the projects table: id, name, code, manager_id. -/
structure ProjectRow where
  id : Nat
  name : String
  code : String
  manager_id : Nat
deriving DecidableEq

/-- Row of the users table (one membership row per user and project):
id, telegram_id, name, role, project_id, is_active (DEFAULT 0). -/
structure UserRow where
  id : Nat
  telegram_id : Nat
  name : String
  role : Option String
  project_id : Option Nat
  is_active : Bool
deriving DecidableEq

/-- Row of the project_roles table (the id column is never read). -/
structure RoleRow where
  project_id : Nat
  role_name : String
deriving DecidableEq

/-- Row of the tasks table: id, project_id, description, deadline,
assigned_to, status (DEFAULT pending), created_at. -/
structure TaskRow where
  id : Nat
  project_id : Nat
  description : String
  deadline : Nat
  assigned_to : Option Nat
  status : String
  created_at : Nat
deriving DecidableEq

/-- State of the SQLite database: the four tables in rowid order plus
the next fresh primary key of each table with generated ids. -/
structure Database where
  projects : List ProjectRow
  users : List UserRow
  project_roles : List RoleRow
  tasks : List TaskRow
  next_project_id : Nat
  next_user_id : Nat
  next_task_id : Nat
deriving DecidableEq

/-- Freshly created database (empty tables). -/
def initialDB : Database := ⟨[], [], [], [], 1, 1, 1⟩

/-- SQL equality of a nullable integer column against a nullable
parameter: NULL compares false against everything, including NULL. -/
def sqlEqN : Option Nat → Option Nat → Bool
  | some a, some b => a == b
  | _, _ => false

/-- Database.add_project: INSERT INTO projects, returning lastrowid. -/
def Database.add_project (db : Database) (name code : String)
    (manager_id : Nat) : Database × Nat :=
  let row : ProjectRow := ⟨db.next_project_id, name, code, manager_id⟩
  ({ db with projects := db.projects ++ [row],
             next_project_id := db.next_project_id + 1 }, row.id)

/-- Database.add_user: SELECT id FROM users WHERE telegram_id = ? AND
project_id = ?; if a row exists return its id, otherwise INSERT a new
row (is_active takes the column default 0) and return lastrowid. -/
def Database.add_user (db : Database) (telegram_id : Nat) (name : String)
    (project_id : Option Nat) (role : Option String) : Database × Nat :=
  match db.users.find?
      (fun r => r.telegram_id == telegram_id && sqlEqN r.project_id project_id) with
  | some existing_user => (db, existing_user.id)
  | none =>
      let row : UserRow :=
        ⟨db.next_user_id, telegram_id, name, role, project_id, false⟩
      ({ db with users := db.users ++ [row],
                 next_user_id := db.next_user_id + 1 }, row.id)

/-- Database.add_task: INSERT INTO tasks with status default pending;
created_at is filled by the store clock (CURRENT_TIMESTAMP). -/
def Database.add_task (db : Database) (project_id : Nat)
    (description : String) (deadline : Nat) (assigned_to : Option Nat)
    (created_at : Nat) : Database × Nat :=
  let row : TaskRow :=
    ⟨db.next_task_id, project_id, description, deadline, assigned_to,
      "pending", created_at⟩
  ({ db with tasks := db.tasks ++ [row],
             next_task_id := db.next_task_id + 1 }, row.id)

/-- Database.get_user: SELECT * FROM users WHERE telegram_id = ? with
fetchone, i.e. the first (oldest rowid) membership row of the user. -/
def Database.get_user (db : Database) (telegram_id : Nat) : Option UserRow :=
  db.users.find? (fun r => r.telegram_id == telegram_id)

/-- Database.get_project: SELECT * FROM projects WHERE code = ?. -/
def Database.get_project (db : Database) (code : String) : Option ProjectRow :=
  db.projects.find? (fun p => p.code == code)

/-- Database.get_project_by_id, including its explicit None guard. -/
def Database.get_project_by_id (db : Database) (project_id : Option Nat) :
    Option ProjectRow :=
  match project_id with
  | none => none
  | some pid => db.projects.find? (fun p => p.id == pid)

/-- Database.get_user_by_id: SELECT * FROM users WHERE id = ?. -/
def Database.get_user_by_id (db : Database) (user_id : Nat) : Option UserRow :=
  db.users.find? (fun r => r.id == user_id)

/-- Database.get_task_by_id: SELECT * FROM tasks WHERE id = ?. -/
def Database.get_task_by_id (db : Database) (task_id : Nat) : Option TaskRow :=
  db.tasks.find? (fun t => t.id == task_id)

/-- Database.get_active_user: SELECT id FROM users WHERE
telegram_id = ? AND is_active = 1. -/
def Database.get_active_user (db : Database) (telegram_id : Nat) : Option Nat :=
  (db.users.find? (fun r => r.telegram_id == telegram_id && r.is_active)).map
    (fun r => r.id)

/-- Database.get_project_users: SELECT * FROM users WHERE project_id = ?. -/
def Database.get_project_users (db : Database) (project_id : Nat) :
    List UserRow :=
  db.users.filter (fun u => u.project_id == some project_id)

/-- Database.get_project_roles: role_name of each project_roles row of
the project. -/
def Database.get_project_roles (db : Database) (project_id : Nat) :
    List String :=
  (db.project_roles.filter (fun r => r.project_id == project_id)).map
    (fun r => r.role_name)

/-- Database.update_task_status: UPDATE tasks SET status = ? WHERE id = ?. -/
def Database.update_task_status (db : Database) (task_id : Nat)
    (status : String) : Database :=
  { db with tasks := (db.tasks.map
      (fun t => if t.id == task_id then { t with status := status } else t)) }

/-- Database.update_user_role: UPDATE users SET role = ? WHERE id = ?. -/
def Database.update_user_role (db : Database) (user_id : Nat)
    (role : String) : Database :=
  { db with users := (db.users.map
      (fun u => if u.id == user_id then { u with role := some role } else u)) }

/-- Database.add_project_role: INSERT INTO project_roles, with the
UNIQUE(project_id, role_name) violation swallowed (duplicate ignored). -/
def Database.add_project_role (db : Database) (project_id : Nat)
    (role_name : String) : Database :=
  if db.project_roles.any
      (fun r => r.project_id == project_id && r.role_name == role_name) then
    db
  else
    { db with project_roles := db.project_roles ++ [⟨project_id, role_name⟩] }

/-- Database.switch_user_project: verify the project id exists in the
projects table (not that the caller is a member); then UPDATE users SET
is_active = 0 WHERE telegram_id = ?, then UPDATE users SET is_active = 1
WHERE telegram_id = ? AND project_id = ?, committed together. -/
def Database.switch_user_project (db : Database) (telegram_id : Nat)
    (project_id : Nat) : Database × Bool :=
  match db.get_project_by_id (some project_id) with
  | none => (db, false)
  | some _ =>
      let cleared := db.users.map
        (fun r => if r.telegram_id == telegram_id then
            { r with is_active := false } else r)
      let activated := cleared.map
        (fun r => if r.telegram_id == telegram_id &&
              r.project_id == some project_id then
            { r with is_active := true } else r)
      ({ db with users := activated }, true)

/-- Database.delete_project: DELETE the project's tasks, project_roles,
users rows and the project row itself, committed together. -/
def Database.delete_project (db : Database) (project_id : Nat) :
    Database × Bool :=
  ({ db with
      tasks := db.tasks.filter (fun t => !(t.project_id == project_id)),
      project_roles :=
        db.project_roles.filter (fun r => !(r.project_id == project_id)),
      users := db.users.filter (fun u => !(u.project_id == some project_id)),
      projects := db.projects.filter (fun p => !(p.id == project_id)) }, true)

/-- Number of membership rows of a user currently flagged active. -/
def countActive (users : List UserRow) (telegram_id : Nat) : Nat :=
  users.countP (fun r => r.telegram_id == telegram_id && r.is_active)

/-- Number of membership rows a user holds in one given project. -/
def countPair (users : List UserRow) (telegram_id project_id : Nat) : Nat :=
  users.countP
    (fun r => r.telegram_id == telegram_id && r.project_id == some project_id)

/-- Kind of a scheduler notification. -/
inductive NotifKind where
  | reminder
  | escalation
deriving DecidableEq

/-- An outbound scheduler message: recipient telegram id, kind, task id. -/
structure Notification where
  recipient : Nat
  kind : NotifKind
  task_id : Nat
deriving DecidableEq

/-- Joined row produced by the deadline query of
TaskScheduler.check_deadlines: t.id, t.description, t.deadline,
u.telegram_id of the assignee, p.manager_id. -/
structure DueTask where
  task_id : Nat
  description : String
  deadline : Nat
  assignee_tid : Nat
  manager_id : Nat
deriving DecidableEq

/-- One task's contribution to the deadline query: the INNER JOINs on
assigned_to and project_id must resolve (a NULL assigned_to matches no
users row) and the task must satisfy status != completed AND
deadline <= now + 24h AND deadline > now.  The string comparisons on the
sortable timestamp format coincide with the numeric ones used here. -/
def selectDue (db : Database) (now : Nat) (t : TaskRow) : Option DueTask :=
  match t.assigned_to with
  | none => none
  | some uid =>
    match db.users.find? (fun u => u.id == uid),
          db.projects.find? (fun p => p.id == t.project_id) with
    | some u, some p =>
        if t.status ≠ "completed" ∧ t.deadline ≤ now + 86400 ∧ now < t.deadline
        then some ⟨t.id, t.description, t.deadline, u.telegram_id, p.manager_id⟩
        else none
    | _, _ => none

/-- Result set of the deadline query, in task rowid order. -/
def TaskScheduler.upcoming_tasks (db : Database) (now : Nat) : List DueTask :=
  db.tasks.filterMap (selectDue db now)

/-- Messages sent for one qualifying task: a reminder to the assignee
always, and an escalation to the manager when
hours_left = int(remaining seconds / 3600) is at most 2.  The remaining
time is positive for every row of the query result, so the Python
truncation toward zero agrees with natural-number division. -/
def notificationsFor (now : Nat) (t : DueTask) : List Notification :=
  let hours_left := (t.deadline - now) / 3600
  ⟨t.assignee_tid, NotifKind.reminder, t.task_id⟩ ::
    (if hours_left ≤ 2 then
      [⟨t.manager_id, NotifKind.escalation, t.task_id⟩]
    else [])

/-- TaskScheduler.check_deadlines: all messages sent in one run at
wall-clock time now. -/
def TaskScheduler.check_deadlines (db : Database) (now : Nat) :
    List Notification :=
  (TaskScheduler.upcoming_tasks db now).flatMap (fun t => notificationsFor now t)

/-- One row chosen by ORDER BY RANDOM() LIMIT 1, modelled by an
arbitrary index supplied as a seed; returns none exactly when the
candidate list is empty. -/
def randChoice (rand : Nat) (l : List UserRow) : Option UserRow :=
  l[rand % l.length]?

/-- get_best_assignee.  The Recommender call is modelled by its outcome
recResult: none means the call (or anything inside the try block up to
it) raised, in which case the except branch returns None; some role is
the recommended role string.  With a role in hand the function picks a
random holder of that role in the project, and if there is none, a
random member of the project, returning None only when the project has
no members at all. -/
def get_best_assignee (db : Database) (_description : String)
    (_project_roles : List String) (project_id : Nat)
    (recResult : Option String) (rand : Nat) : Option Nat :=
  match recResult with
  | none => none
  | some recommended_role =>
    match randChoice rand (db.users.filter
        (fun u => u.project_id == some project_id &&
                  u.role == some recommended_role)) with
    | some u => some u.id
    | none =>
      match randChoice rand (db.users.filter
          (fun u => u.project_id == some project_id)) with
      | some u => some u.id
      | none => none

/-- How the deadline step of task creation resolves the assignee. -/
inductive AssigneeResolution where
  | autoAssigned (user_id : Nat)
  | manualChoice (candidates : List UserRow)
deriving DecidableEq

/-- Assignee resolution of process_task_deadline: auto-assign when
get_best_assignee returned a user id, otherwise list all the project's
membership rows for manual selection. -/
def process_task_deadline_resolve (db : Database) (project_id : Nat)
    (description : String) (recResult : Option String) (rand : Nat) :
    AssigneeResolution :=
  match get_best_assignee db description (db.get_project_roles project_id)
      project_id recResult rand with
  | some a => AssigneeResolution.autoAssigned a
  | none => AssigneeResolution.manualChoice (db.get_project_users project_id)

/-- Calendar datetime with minute resolution, the value produced by
parsing a deadline entered as DD.MM.YYYY HH:MM. -/
structure Datetime where
  year : Nat
  month : Nat
  day : Nat
  hour : Nat
  minute : Nat
deriving DecidableEq

/-- Injective monotone key of a datetime under the component bounds
month <= 12, day <= 31, hour <= 23, minute <= 59. -/
def Datetime.key (d : Datetime) : Nat :=
  (((d.year * 13 + d.month) * 32 + d.day) * 24 + d.hour) * 60 + d.minute

/-- Chronological strict order on datetimes. -/
def Datetime.isBefore (a b : Datetime) : Bool :=
  a.key < b.key

/-- Gregorian leap-year rule. -/
def isLeap (y : Nat) : Bool :=
  (y % 4 == 0 && y % 100 != 0) || y % 400 == 0

/-- Number of days of a month, as validated by strptime. -/
def daysInMonth (y m : Nat) : Nat :=
  if m == 2 then (if isLeap y then 29 else 28)
  else if m == 4 || m == 6 || m == 9 || m == 11 then 30
  else 31

/-- Numeric value of a decimal digit character. -/
def dval (c : Char) : Nat := c.toNat - 48

/-- Modelled library call: datetime.strptime(text, day.month.year
hour:minute format), restricted to the zero-padded shape
DD.MM.YYYY HH:MM (every string of that shape is accepted by strptime);
the component ranges and the per-month day bound are validated exactly
as strptime does, and any other input raises ValueError (none). -/
def parseDeadline (s : String) : Option Datetime :=
  match s.toList with
  | [d1, d2, s1, m1, m2, s2, y1, y2, y3, y4, s3, h1, h2, s4, n1, n2] =>
    if s1 = '.' ∧ s2 = '.' ∧ s3 = ' ' ∧ s4 = ':' ∧
        d1.isDigit = true ∧ d2.isDigit = true ∧ m1.isDigit = true ∧
        m2.isDigit = true ∧ y1.isDigit = true ∧ y2.isDigit = true ∧
        y3.isDigit = true ∧ y4.isDigit = true ∧ h1.isDigit = true ∧
        h2.isDigit = true ∧ n1.isDigit = true ∧ n2.isDigit = true then
      let day := dval d1 * 10 + dval d2
      let month := dval m1 * 10 + dval m2
      let year := ((dval y1 * 10 + dval y2) * 10 + dval y3) * 10 + dval y4
      let hour := dval h1 * 10 + dval h2
      let minute := dval n1 * 10 + dval n2
      if 1 ≤ year ∧ 1 ≤ month ∧ month ≤ 12 ∧ 1 ≤ day ∧
          day ≤ daysInMonth year month ∧ hour ≤ 23 ∧ minute ≤ 59 then
        some ⟨year, month, day, hour, minute⟩
      else none
    else none
  | _ => none

/-- Outcome of the waiting_for_deadline step on one inbound text. -/
inductive DeadlineStepResult where
  | reprompt
  | advanced (deadline : Datetime)
deriving DecidableEq

/-- Deadline validation of process_task_deadline: on ValueError the
handler answers the format error and returns (same step, state kept);
on a successful parse it proceeds with the parsed value — there is no
comparison of the parsed moment against the current wall-clock time. -/
def process_task_deadline_step (text : String) : DeadlineStepResult :=
  match parseDeadline text with
  | none => DeadlineStepResult.reprompt
  | some d => DeadlineStepResult.advanced d

/-- Commit of the registration role-selection callback
(process_role_selection): if get_user already finds any membership row
of the caller the handler only re-shows the menu; otherwise it calls
add_user with the selected role.  It never calls switch_user_project. -/
def process_role_selection (db : Database) (telegram_id : Nat)
    (full_name : String) (project_id : Nat) (selected_role : String) :
    Database :=
  match db.get_user telegram_id with
  | some _ => db
  | none =>
      (db.add_user telegram_id full_name (some project_id)
        (some selected_role)).fst

/-- Fixed role list accepted by the legacy text path of registration. -/
def valid_roles : List String := ["Программист", "Дизайнер", "Аналитик"]

/-- Commit of the legacy registration text path (process_role): role
text outside valid_roles re-prompts (none); otherwise add_user is
called with the stored name and the typed role.  It never calls
switch_user_project. -/
def process_role (db : Database) (telegram_id : Nat) (stored_name : String)
    (project_id : Nat) (text : String) : Option Database :=
  if text ∈ valid_roles then
    some (db.add_user telegram_id stored_name (some project_id) (some text)).fst
  else none

/-- Store effect of the complete_task callback: the status update runs
first, unconditionally, for whatever task id the callback token
carries; the caller identity is only used afterwards to pick which
menu to display, so it cannot influence the database change. -/
def complete_task (db : Database) (task_id : Nat) (_caller_tid : Nat) :
    Database :=
  db.update_task_status task_id "completed"

/-- Outcome of the create_task callback before any task data is read. -/
inductive CreateTaskOutcome where
  | blocked
  | denied
  | promptDescription (project_id : Nat)
deriving DecidableEq

/-- cb_create_task: the membership row is the middleware's
data user, i.e. get_user (first row of the telegram id), and the
project checked for managership is that row's project; a missing user
or project row raises before any answer (blocked). -/
def cb_create_task (db : Database) (caller_tid : Nat) : CreateTaskOutcome :=
  match db.get_user caller_tid with
  | none => CreateTaskOutcome.blocked
  | some user =>
    match db.get_project_by_id user.project_id with
    | none => CreateTaskOutcome.blocked
    | some project =>
      if project.manager_id == caller_tid then
        CreateTaskOutcome.promptDescription project.id
      else CreateTaskOutcome.denied

/-- Outcome of the delete_project callback. -/
inductive DeleteProjectOutcome where
  | blocked
  | denied
  | confirmDeletion (project_id : Nat) (project_name : String)
deriving DecidableEq

/-- cb_delete_project: the target project is resolved through
get_user (first row of the telegram id) exactly as in cb_create_task;
the deletion confirmation step later re-resolves the same way. -/
def cb_delete_project (db : Database) (caller_tid : Nat) :
    DeleteProjectOutcome :=
  match db.get_user caller_tid with
  | none => DeleteProjectOutcome.blocked
  | some user =>
    match db.get_project_by_id user.project_id with
    | none => DeleteProjectOutcome.blocked
    | some project =>
      if project.manager_id == caller_tid then
        DeleteProjectOutcome.confirmDeletion project.id project.name
      else DeleteProjectOutcome.denied

/-- Every database mutation the program performs, each one a call of
the corresponding Database method. -/
inductive Op where
  | addProject (name code : String) (manager_id : Nat)
  | addUser (telegram_id : Nat) (name : String) (project_id : Option Nat)
      (role : Option String)
  | addTask (project_id : Nat) (description : String) (deadline : Nat)
      (assigned_to : Option Nat) (created_at : Nat)
  | updateTaskStatus (task_id : Nat) (status : String)
  | updateUserRole (user_id : Nat) (role : String)
  | addProjectRole (project_id : Nat) (role_name : String)
  | switchUserProject (telegram_id : Nat) (project_id : Nat)
  | deleteProject (project_id : Nat)
deriving DecidableEq

/-- Effect of one mutation on the database state. -/
def Op.apply : Op → Database → Database
  | Op.addProject nm code mid, db => (db.add_project nm code mid).fst
  | Op.addUser tid nm pid role, db => (db.add_user tid nm pid role).fst
  | Op.addTask pid desc dl asg ca, db => (db.add_task pid desc dl asg ca).fst
  | Op.updateTaskStatus t st, db => db.update_task_status t st
  | Op.updateUserRole uid role, db => db.update_user_role uid role
  | Op.addProjectRole pid rn, db => db.add_project_role pid rn
  | Op.switchUserProject tid pid, db => (db.switch_user_project tid pid).fst
  | Op.deleteProject pid, db => (db.delete_project pid).fst

/-- Database states reachable from a fresh database through the
program's mutations. -/
inductive Reachable : Database → Prop where
  | init : Reachable initialDB
  | step (op : Op) {db : Database} :
      Reachable db → Reachable (op.apply db)

/-- Invariant carried through every mutation: each user has at most one
active membership row and at most one membership row per project. -/
def DbInv (db : Database) : Prop :=
  (∀ tid, countActive db.users tid ≤ 1) ∧
  (∀ tid pid, countPair db.users tid pid ≤ 1)

/-- A state change that does not write the active flag: every surviving
membership row keeps its flag and every new row starts inactive. -/
def flags_preserved (db db2 : Database) : Prop :=
  ∀ r2 ∈ db2.users, r2.is_active = false ∨
    ∃ r ∈ db.users, r.id = r2.id ∧ r.is_active = r2.is_active

/-- Final flag value of one membership row after switch_user_project:
clear-then-set leaves exactly the rows of the target project active. -/
def switchFlag (tid pid : Nat) (r : UserRow) : UserRow :=
  if r.telegram_id == tid then
    { r with is_active := (r.project_id == some pid) }
  else r

/-- Two existing projects and one user who is a member only of project
1 and currently active there. -/
def dbC2 : Database :=
  { projects := [⟨1, "Alpha", "AAAAAAAA", 10⟩, ⟨2, "Beta", "BBBBBBBB", 11⟩],
    users := [⟨1, 100, "Ann", some "Dev", some 1, true⟩],
    project_roles := [], tasks := [],
    next_project_id := 3, next_user_id := 2, next_task_id := 1 }

/-- Like dbC2: a member of project 1 only, both projects existing. -/
def dbC2w : Database :=
  { projects := [⟨1, "Gamma", "CCCCCCCC", 12⟩, ⟨2, "Delta", "DDDDDDDD", 13⟩],
    users := [⟨1, 101, "Bea", some "QA", some 1, true⟩],
    project_roles := [], tasks := [],
    next_project_id := 3, next_user_id := 2, next_task_id := 1 }

/-- One pending task assigned to user 1 (telegram id 20) in a project
managed by telegram id 10, due 7260 seconds after time 1000000. -/
def dbC3 : Database :=
  { projects := [⟨1, "Alpha", "AAAAAAAA", 10⟩],
    users := [⟨1, 20, "Wim", some "Dev", some 1, true⟩],
    project_roles := [⟨1, "Dev"⟩],
    tasks := [⟨1, 1, "write report", 1007260, some 1, "pending", 0⟩],
    next_project_id := 2, next_user_id := 2, next_task_id := 2 }

/-- One project with a role catalog and no members yet. -/
def dbC4 : Database :=
  { projects := [⟨1, "Alpha", "AAAAAAAA", 10⟩],
    users := [], project_roles := [⟨1, "Dev"⟩], tasks := [],
    next_project_id := 2, next_user_id := 1, next_task_id := 1 }

/-- One project with a role catalog and no members yet. -/
def dbC4w : Database :=
  { projects := [⟨1, "Pi", "PPPPPPPP", 9⟩],
    users := [], project_roles := [⟨1, "QA"⟩], tasks := [],
    next_project_id := 2, next_user_id := 1, next_task_id := 1 }

/-- One project with two members, holding roles Dev and QA. -/
def dbC5 : Database :=
  { projects := [⟨1, "Alpha", "AAAAAAAA", 10⟩],
    users := [⟨1, 21, "Ada", some "Dev", some 1, false⟩,
              ⟨2, 22, "Ben", some "QA", some 1, false⟩],
    project_roles := [⟨1, "Dev"⟩, ⟨1, "QA"⟩], tasks := [],
    next_project_id := 2, next_user_id := 3, next_task_id := 1 }

/-- One project with a single member holding role Dev. -/
def dbC5w : Database :=
  { projects := [⟨1, "Rho", "RRRRRRRR", 15⟩],
    users := [⟨1, 31, "Cey", some "Dev", some 1, true⟩],
    project_roles := [⟨1, "Dev"⟩, ⟨1, "QA"⟩], tasks := [],
    next_project_id := 2, next_user_id := 2, next_task_id := 1 }

/-- One project and one member the window boundary tasks refer to. -/
def dbC6w : Database :=
  { projects := [⟨1, "Sig", "SSSSSSSS", 16⟩],
    users := [⟨1, 40, "Dee", some "Dev", some 1, true⟩],
    project_roles := [⟨1, "Dev"⟩], tasks := [],
    next_project_id := 2, next_user_id := 2, next_task_id := 1 }

/-- One pending task, assigned to a member of another caller's project. -/
def dbC9w : Database :=
  { projects := [⟨1, "Tau", "TTTTTTTT", 17⟩],
    users := [⟨1, 41, "Eve", some "Dev", some 1, true⟩],
    project_roles := [⟨1, "Dev"⟩],
    tasks := [⟨1, 1, "ship build", 500, some 1, "pending", 0⟩],
    next_project_id := 2, next_user_id := 2, next_task_id := 2 }

/-- A user whose first membership row is in project 1 (which they
manage) while their active membership row is in project 2. -/
def dbC10w : Database :=
  { projects := [⟨1, "One", "EEEEEEEE", 50⟩, ⟨2, "Two", "FFFFFFFF", 60⟩],
    users := [⟨1, 50, "Fay", some "Manager", some 1, false⟩,
              ⟨2, 50, "Fay", some "Dev", some 2, true⟩],
    project_roles := [], tasks := [],
    next_project_id := 3, next_user_id := 3, next_task_id := 1 }

theorem countP_ext {α : Type} (l : List α) (p q : α → Bool)
    (h : ∀ a ∈ l, p a = q a) : l.countP p = l.countP q := by
  induction l with
  | nil => rfl
  | cons a t ih =>
      rw [List.countP_cons, List.countP_cons, h a (List.mem_cons_self a t),
        ih (fun x hx => h x (List.mem_cons_of_mem a hx))]

theorem countP_map_rel {α : Type} (l : List α) (f : α → α) (p q : α → Bool)
    (h : ∀ a ∈ l, p (f a) = q a) : (l.map f).countP p = l.countP q := by
  rw [List.countP_map]
  exact countP_ext l _ _ h

theorem sqlEqN_some (a : Option Nat) (b : Nat) :
    sqlEqN a (some b) = (a == some b) := by
  cases a <;> rfl

theorem users_add_project_role (db : Database) (pid : Nat) (rn : String) :
    (db.add_project_role pid rn).users = db.users := by
  unfold Database.add_project_role
  split <;> rfl

theorem switchFlag_tel (tid pid : Nat) (r : UserRow) :
    (switchFlag tid pid r).telegram_id = r.telegram_id := by
  unfold switchFlag
  split <;> rfl

theorem switchFlag_proj (tid pid : Nat) (r : UserRow) :
    (switchFlag tid pid r).project_id = r.project_id := by
  unfold switchFlag
  split <;> rfl

theorem switchFlag_active_eq (tid pid : Nat) (r : UserRow) :
    ((switchFlag tid pid r).telegram_id == tid && (switchFlag tid pid r).is_active)
      = (r.telegram_id == tid && r.project_id == some pid) := by
  unfold switchFlag
  by_cases h1 : r.telegram_id = tid
  · simp [h1]
  · have hb : (r.telegram_id == tid) = false := beq_eq_false_iff_ne.mpr h1
    simp [h1, hb]

theorem switchFlag_active_ne (tid pid tid2 : Nat) (h : tid2 ≠ tid)
    (r : UserRow) :
    ((switchFlag tid pid r).telegram_id == tid2 && (switchFlag tid pid r).is_active)
      = (r.telegram_id == tid2 && r.is_active) := by
  unfold switchFlag
  by_cases h1 : r.telegram_id = tid
  · have hb : (tid == tid2) = false := beq_eq_false_iff_ne.mpr (Ne.symm h)
    simp [h1, hb]
  · simp [h1]

theorem switchFlag_pair (tid pid tid2 pid2 : Nat) (r : UserRow) :
    ((switchFlag tid pid r).telegram_id == tid2 &&
        (switchFlag tid pid r).project_id == some pid2)
      = (r.telegram_id == tid2 && r.project_id == some pid2) := by
  unfold switchFlag
  by_cases h1 : r.telegram_id = tid <;> simp [h1]

theorem switch_users_eq (users : List UserRow) (tid pid : Nat) :
    ((users.map (fun r => if r.telegram_id == tid then
        { r with is_active := false } else r)).map
      (fun r => if r.telegram_id == tid && r.project_id == some pid then
        { r with is_active := true } else r))
      = users.map (switchFlag tid pid) := by
  rw [List.map_map]
  apply List.map_congr_left
  intro r _
  simp only [Function.comp_apply, switchFlag]
  by_cases h1 : r.telegram_id = tid
  · by_cases h2 : r.project_id = some pid
    · simp [h1, h2]
    · simp [h1, h2]
  · simp [h1]

theorem switch_user_project_found (db : Database) (tid pid : Nat)
    (p : ProjectRow) (hp : db.get_project_by_id (some pid) = some p) :
    db.switch_user_project tid pid
      = ({ db with users := db.users.map (switchFlag tid pid) }, true) := by
  unfold Database.switch_user_project
  rw [hp]
  dsimp only
  rw [switch_users_eq]

theorem dbInv_apply (op : Op) (db : Database) (h : DbInv db) :
    DbInv (op.apply db) := by
  obtain ⟨hA, hP⟩ := h
  cases op with
  | addProject nm code mid => exact ⟨hA, hP⟩
  | addTask pid desc dl asg ca => exact ⟨hA, hP⟩
  | updateTaskStatus t st => exact ⟨hA, hP⟩
  | addProjectRole pid rn =>
      refine ⟨fun tid2 => ?_, fun tid2 pid2 => ?_⟩
      · simp only [Op.apply, users_add_project_role]
        exact hA tid2
      · simp only [Op.apply, users_add_project_role]
        exact hP tid2 pid2
  | updateUserRole uid role =>
      show DbInv (db.update_user_role uid role)
      unfold Database.update_user_role
      refine ⟨fun tid2 => ?_, fun tid2 pid2 => ?_⟩
      · unfold countActive
        dsimp only
        rw [countP_map_rel db.users
          (fun u => if u.id == uid then { u with role := some role } else u)
          (fun r => r.telegram_id == tid2 && r.is_active)
          (fun r => r.telegram_id == tid2 && r.is_active)
          (fun r hr => by by_cases hid : r.id = uid <;> simp [hid])]
        exact hA tid2
      · unfold countPair
        dsimp only
        rw [countP_map_rel db.users
          (fun u => if u.id == uid then { u with role := some role } else u)
          (fun r => r.telegram_id == tid2 && r.project_id == some pid2)
          (fun r => r.telegram_id == tid2 && r.project_id == some pid2)
          (fun r hr => by by_cases hid : r.id = uid <;> simp [hid])]
        exact hP tid2 pid2
  | switchUserProject tid pid =>
      show DbInv (db.switch_user_project tid pid).fst
      cases hg : db.get_project_by_id (some pid) with
      | none =>
          unfold Database.switch_user_project
          rw [hg]
          exact ⟨hA, hP⟩
      | some p =>
          rw [switch_user_project_found db tid pid p hg]
          refine ⟨fun tid2 => ?_, fun tid2 pid2 => ?_⟩
          · show countActive (db.users.map (switchFlag tid pid)) tid2 ≤ 1
            unfold countActive
            by_cases ht : tid2 = tid
            · subst ht
              rw [countP_map_rel db.users _ _ _
                (fun r hr => switchFlag_active_eq tid2 pid r)]
              exact hP tid2 pid
            · rw [countP_map_rel db.users _ _ _
                (fun r hr => switchFlag_active_ne tid pid tid2 ht r)]
              exact hA tid2
          · show countPair (db.users.map (switchFlag tid pid)) tid2 pid2 ≤ 1
            unfold countPair
            rw [countP_map_rel db.users _ _ _
              (fun r hr => switchFlag_pair tid pid tid2 pid2 r)]
            exact hP tid2 pid2
  | addUser tid nm pid role =>
      show DbInv (db.add_user tid nm pid role).fst
      unfold Database.add_user
      cases hf : db.users.find?
          (fun r => r.telegram_id == tid && sqlEqN r.project_id pid) with
      | some r => exact ⟨hA, hP⟩
      | none =>
          dsimp only
          refine ⟨fun tid2 => ?_, fun tid2 pid2 => ?_⟩
          · unfold countActive
            rw [List.countP_append]
            have h0 : List.countP (fun r => r.telegram_id == tid2 && r.is_active)
                ([⟨db.next_user_id, tid, nm, role, pid, false⟩] : List UserRow) = 0 := by
              simp [List.countP_cons]
            rw [h0]
            simpa using hA tid2
          · unfold countPair
            rw [List.countP_append]
            by_cases hq : tid = tid2 ∧ pid = some pid2
            · obtain ⟨h1, h2⟩ := hq
              subst h1
              subst h2
              have hz : List.countP
                  (fun r => r.telegram_id == tid && r.project_id == some pid2)
                  db.users = 0 := by
                rw [List.countP_eq_zero]
                intro a ha
                have hna := List.find?_eq_none.mp hf a ha
                rw [sqlEqN_some a.project_id pid2] at hna
                exact hna
              rw [hz]
              have hle : List.countP
                  (fun r => r.telegram_id == tid && r.project_id == some pid2)
                  ([⟨db.next_user_id, tid, nm, role, some pid2, false⟩] : List UserRow) ≤ 1 := by
                simp [List.countP_cons]
              rw [Nat.zero_add]
              exact hle
            · have h0 : List.countP
                  (fun r => r.telegram_id == tid2 && r.project_id == some pid2)
                  ([⟨db.next_user_id, tid, nm, role, pid, false⟩] : List UserRow) = 0 := by
                rcases not_and_or.mp hq with h | h
                · have hb : (tid == tid2) = false := beq_eq_false_iff_ne.mpr h
                  simp [List.countP_cons, hb]
                · have hb : (pid == some pid2) = false := beq_eq_false_iff_ne.mpr h
                  simp [List.countP_cons, hb]
              rw [h0]
              simpa using hP tid2 pid2
  | deleteProject pid =>
      show DbInv (db.delete_project pid).fst
      unfold Database.delete_project
      dsimp only
      refine ⟨fun tid2 => ?_, fun tid2 pid2 => ?_⟩
      · unfold countActive
        rw [List.countP_filter]
        refine le_trans (List.countP_mono_left ?_) (hA tid2)
        intro x hx hpx
        exact (Bool.and_eq_true_iff.mp hpx).1
      · unfold countPair
        rw [List.countP_filter]
        refine le_trans (List.countP_mono_left ?_) (hP tid2 pid2)
        intro x hx hpx
        exact (Bool.and_eq_true_iff.mp hpx).1

theorem dbInv_reachable (db : Database) (h : Reachable db) : DbInv db := by
  induction h with
  | init => exact ⟨fun tid => Nat.zero_le 1, fun tid pid => Nat.zero_le 1⟩
  | step op hr ih => exact dbInv_apply op _ ih

theorem flags_preserved_nonswitch (op : Op) (db : Database)
    (hne : ∀ tid pid, op ≠ Op.switchUserProject tid pid) :
    flags_preserved db (op.apply db) := by
  cases op with
  | switchUserProject tid pid => exact absurd rfl (hne tid pid)
  | addProject nm code mid => exact fun r2 h2 => Or.inr ⟨r2, h2, rfl, rfl⟩
  | addTask pid desc dl asg ca => exact fun r2 h2 => Or.inr ⟨r2, h2, rfl, rfl⟩
  | updateTaskStatus t st => exact fun r2 h2 => Or.inr ⟨r2, h2, rfl, rfl⟩
  | addProjectRole pid rn =>
      intro r2 h2
      have h3 : r2 ∈ (db.add_project_role pid rn).users := h2
      rw [users_add_project_role] at h3
      exact Or.inr ⟨r2, h3, rfl, rfl⟩
  | addUser tid nm pid role =>
      intro r2 h2
      have h3 : r2 ∈ (db.add_user tid nm pid role).fst.users := h2
      unfold Database.add_user at h3
      split at h3
      · exact Or.inr ⟨r2, h3, rfl, rfl⟩
      · dsimp only at h3
        rcases List.mem_append.mp h3 with h | h
        · exact Or.inr ⟨r2, h, rfl, rfl⟩
        · rcases List.mem_cons.mp h with h | h
          · left
            rw [h]
          · cases h
  | updateUserRole uid role =>
      intro r2 h2
      have h3 : r2 ∈ (db.update_user_role uid role).users := h2
      unfold Database.update_user_role at h3
      dsimp only at h3
      obtain ⟨r, hr, hfr⟩ := List.mem_map.mp h3
      right
      refine ⟨r, hr, ?_, ?_⟩
      · rw [← hfr]
        by_cases hid : r.id = uid <;> simp [hid]
      · rw [← hfr]
        by_cases hid : r.id = uid <;> simp [hid]
  | deleteProject pid =>
      intro r2 h2
      have h3 : r2 ∈ (db.delete_project pid).fst.users := h2
      unfold Database.delete_project at h3
      dsimp only at h3
      exact Or.inr ⟨r2, (List.mem_filter.mp h3).1, rfl, rfl⟩

/-- C1: in every database state reachable through the program's
mutations each user has at most one membership row with the active
flag set; no mutation other than switch_user_project ever writes the
active flag (surviving rows keep their flag and new rows start
inactive); and a membership freshly inserted by add_user carries
is_active = false. -/
theorem c1_single_active_membership :
    (∀ db, Reachable db → ∀ tid, countActive db.users tid ≤ 1) ∧
    (∀ (op : Op) (db : Database),
      (∀ tid pid, op ≠ Op.switchUserProject tid pid) →
      flags_preserved db (op.apply db)) ∧
    (∀ (db : Database) (tid : Nat) (nm : String) (pid : Option Nat)
        (role : Option String),
      db.users.find?
          (fun r => r.telegram_id == tid && sqlEqN r.project_id pid) = none →
      (db.add_user tid nm pid role).fst.users
        = db.users ++ [⟨db.next_user_id, tid, nm, role, pid, false⟩]) := by
  refine ⟨fun db h tid => (dbInv_reachable db h).1 tid,
    flags_preserved_nonswitch, ?_⟩
  intro db tid nm pid role hf
  unfold Database.add_user
  rw [hf]

/-- C1 witness: the invariant at a concrete reachable state, flag
preservation of a concrete non-switch mutation, and the inactive row a
concrete add_user insertion appends. -/
theorem c1_witness :
    countActive initialDB.users 7 ≤ 1 ∧
    flags_preserved initialDB ((Op.addProject "Mu" "GGGGGGGG" 5).apply initialDB) ∧
    (initialDB.add_user 7 "Ned" (some 1) (some "Dev")).fst.users
      = initialDB.users ++ [⟨1, 7, "Ned", some "Dev", some 1, false⟩] :=
  ⟨c1_single_active_membership.1 initialDB Reachable.init 7,
   c1_single_active_membership.2.1 (Op.addProject "Mu" "GGGGGGGG" 5) initialDB
     (fun _ _ h => Op.noConfusion h),
   c1_single_active_membership.2.2 initialDB 7 "Ned" (some 1) (some "Dev") rfl⟩

/-- C2 counterexample: in dbC2 user 100 is an active member of project
1 only, and project 2 exists; switching user 100 to project 2 — a
project they have no membership in — reports success (true, no
NotFound or NotAMember error) and clears the previously active flag,
leaving the user with zero active memberships. -/
theorem c2_counterexample :
    countActive dbC2.users 100 = 1 ∧
    countPair dbC2.users 100 2 = 0 ∧
    (dbC2.switch_user_project 100 2).snd = true ∧
    countActive (dbC2.switch_user_project 100 2).fst.users 100 = 0 := by
  decide

/-- C2 amended: switch_user_project fails (False, state unchanged)
exactly when no project with the requested id exists; when the project
exists it always reports success, clears every active flag of the user
and re-activates exactly the user's membership rows in that project —
so after a successful switch the user's number of active rows equals
the number of membership rows they hold in the target project, which
is zero (not an error, and not the previous flag) when they are not a
member. -/
theorem c2_amended (db : Database) (tid pid : Nat) :
    (db.get_project_by_id (some pid) = none →
      db.switch_user_project tid pid = (db, false)) ∧
    (∀ p, db.get_project_by_id (some pid) = some p →
      db.switch_user_project tid pid
        = ({ db with users := db.users.map (switchFlag tid pid) }, true)) ∧
    (∀ p, db.get_project_by_id (some pid) = some p →
      countActive (db.switch_user_project tid pid).fst.users tid
        = countPair db.users tid pid) := by
  refine ⟨?_, ?_, ?_⟩
  · intro h
    unfold Database.switch_user_project
    rw [h]
  · intro p hp
    exact switch_user_project_found db tid pid p hp
  · intro p hp
    rw [switch_user_project_found db tid pid p hp]
    show countActive (db.users.map (switchFlag tid pid)) tid = countPair db.users tid pid
    unfold countActive countPair
    exact countP_map_rel db.users _ _ _ (fun r hr => switchFlag_active_eq tid pid r)

/-- C2 witness: the amended statement evaluated on dbC2w — switching
to the nonexistent project 9 fails and changes nothing; switching to
the existing project 2, of which user 101 is not a member, succeeds
and leaves the user with zero active rows. -/
theorem c2_witness :
    dbC2w.switch_user_project 101 9 = (dbC2w, false) ∧
    dbC2w.switch_user_project 101 2
      = ({ dbC2w with users := dbC2w.users.map (switchFlag 101 2) }, true) ∧
    countActive (dbC2w.switch_user_project 101 2).fst.users 101 = 0 := by
  refine ⟨(c2_amended dbC2w 101 9).1 (by decide),
    (c2_amended dbC2w 101 2).2.1 ⟨2, "Delta", "DDDDDDDD", 13⟩ (by decide), ?_⟩
  rw [(c2_amended dbC2w 101 2).2.2 ⟨2, "Delta", "DDDDDDDD", 13⟩ (by decide)]
  decide

/-- C3 counterexample: the task of dbC3 has 7260 seconds (2h01m) left
at time 1000000, strictly more than 2 hours, yet the run sends the
manager escalation, because int((deadline - now)/3600) truncates 2.016
to 2. -/
theorem c3_counterexample :
    (⟨10, NotifKind.escalation, 1⟩ : Notification)
        ∈ TaskScheduler.check_deadlines dbC3 1000000 ∧
    2 * 3600 < 1007260 - 1000000 := by
  decide

/-- C3 amended: every qualifying task produces a reminder to its
assignee, and additionally an escalation to the project's manager if
and only if the remaining time truncated to whole hours is at most 2,
i.e. the remaining time is strictly below 3 hours; in particular a
task with exactly 2h00m remaining escalates, and so does one with
2h01m remaining, while one with 3h00m remaining does not. -/
theorem c3_amended (db : Database) (now : Nat) (t : DueTask) :
    TaskScheduler.check_deadlines db now
      = (TaskScheduler.upcoming_tasks db now).flatMap
          (fun u => notificationsFor now u) ∧
    (⟨t.assignee_tid, NotifKind.reminder, t.task_id⟩ : Notification)
      ∈ notificationsFor now t ∧
    ((⟨t.manager_id, NotifKind.escalation, t.task_id⟩ : Notification)
        ∈ notificationsFor now t ↔ t.deadline - now < 10800) := by
  refine ⟨rfl, ?_, ?_⟩
  · unfold notificationsFor
    exact List.mem_cons_self _ _
  · unfold notificationsFor
    constructor
    · intro h
      rcases List.mem_cons.mp h with h1 | h2
      · simp at h1
      · by_cases hle : (t.deadline - now) / 3600 ≤ 2
        · omega
        · rw [if_neg hle] at h2
          cases h2
    · intro h
      have hle : (t.deadline - now) / 3600 ≤ 2 := by omega
      apply List.mem_cons_of_mem
      rw [if_pos hle]
      exact List.mem_cons_self _ _

theorem countActive_add_user (db : Database) (tid : Nat) (nm : String)
    (pid : Option Nat) (role : Option String) (tid2 : Nat) :
    countActive (db.add_user tid nm pid role).fst.users tid2
      = countActive db.users tid2 := by
  unfold Database.add_user
  cases hf : db.users.find?
      (fun r => r.telegram_id == tid && sqlEqN r.project_id pid) with
  | some r => rfl
  | none =>
      dsimp only
      unfold countActive
      rw [List.countP_append]
      have h0 : List.countP (fun r => r.telegram_id == tid2 && r.is_active)
          ([⟨db.next_user_id, tid, nm, role, pid, false⟩] : List UserRow) = 0 := by
        simp [List.countP_cons]
      rw [h0, Nat.add_zero]

/-- C4 counterexample: completing the registration role-selection
callback for a fresh user (telegram id 200, project 1, role Dev)
leaves the user with zero active membership rows — the commit inserts
the membership but never calls switch_user_project, so the freshly
registered user does not have exactly one active membership. -/
theorem c4_counterexample :
    process_role_selection dbC4 200 "Bob" 1 "Dev"
      = { dbC4 with users := [⟨1, 200, "Bob", some "Dev", some 1, false⟩],
                    next_user_id := 2 } ∧
    countActive (process_role_selection dbC4 200 "Bob" 1 "Dev").users 200 = 0 ∧
    (process_role_selection dbC4 200 "Bob" 1 "Dev").get_active_user 200
      = none := by
  decide

/-- C4 amended: the registration commit (both the role-selection
callback and the legacy text path) inserts the membership with the
supplied role through add_user but performs no setActiveProject, so
the inserted membership is inactive and a freshly registered user has
zero active memberships; the legacy path also never changes the number
of active rows. -/
theorem c4_amended :
    (∀ (db : Database) (tid : Nat) (nm : String) (pid : Nat) (role : String),
      db.get_user tid = none →
      process_role_selection db tid nm pid role
          = (db.add_user tid nm (some pid) (some role)).fst ∧
      countActive (process_role_selection db tid nm pid role).users tid = 0 ∧
      (∃ u ∈ (process_role_selection db tid nm pid role).users,
        u.telegram_id = tid ∧ u.project_id = some pid ∧
        u.role = some role ∧ u.is_active = false)) ∧
    (∀ (db : Database) (tid : Nat) (nm text : String) (pid : Nat)
        (db2 : Database),
      process_role db tid nm pid text = some db2 →
      countActive db2.users tid = countActive db.users tid) := by
  constructor
  · intro db tid nm pid role hg
    have heq : process_role_selection db tid nm pid role
        = (db.add_user tid nm (some pid) (some role)).fst := by
      unfold process_role_selection
      rw [hg]
    have hf : db.users.find?
        (fun r => r.telegram_id == tid && sqlEqN r.project_id (some pid))
          = none := by
      rw [List.find?_eq_none]
      intro a ha hc
      exact (List.find?_eq_none.mp hg a ha) (Bool.and_eq_true_iff.mp hc).1
    have husers : (db.add_user tid nm (some pid) (some role)).fst.users
        = db.users ++ [⟨db.next_user_id, tid, nm, some role, some pid, false⟩] := by
      unfold Database.add_user
      rw [hf]
    refine ⟨heq, ?_, ?_⟩
    · rw [heq, countActive_add_user]
      unfold countActive
      rw [List.countP_eq_zero]
      intro a ha hc
      exact (List.find?_eq_none.mp hg a ha) (Bool.and_eq_true_iff.mp hc).1
    · rw [heq, husers]
      exact ⟨⟨db.next_user_id, tid, nm, some role, some pid, false⟩,
        List.mem_append_right _ (List.mem_cons_self _ _), rfl, rfl, rfl, rfl⟩
  · intro db tid nm text pid db2 h
    unfold process_role at h
    split at h
    · rw [← Option.some.inj h]
      exact countActive_add_user db tid nm (some pid) (some text) tid
    · cases h

/-- C4 witness: the amended statement evaluated on dbC4w for a fresh
registrant, and on a concrete legacy-path call. -/
theorem c4_witness :
    (process_role_selection dbC4w 300 "Cat" 1 "QA"
        = (dbC4w.add_user 300 "Cat" (some 1) (some "QA")).fst ∧
      countActive (process_role_selection dbC4w 300 "Cat" 1 "QA").users 300 = 0 ∧
      (∃ u ∈ (process_role_selection dbC4w 300 "Cat" 1 "QA").users,
        u.telegram_id = 300 ∧ u.project_id = some 1 ∧
        u.role = some "QA" ∧ u.is_active = false)) ∧
    countActive ({ dbC4w with
        users := [⟨1, 300, "Kim", some "Программист", some 1, false⟩],
        next_user_id := 2 } : Database).users 300
      = countActive dbC4w.users 300 :=
  ⟨c4_amended.1 dbC4w 300 "Cat" 1 "QA" rfl,
   c4_amended.2 dbC4w 300 "Kim" "Программист" 1
     ({ dbC4w with
        users := [⟨1, 300, "Kim", some "Программист", some 1, false⟩],
        next_user_id := 2 }) (by decide)⟩

theorem randChoice_nil (rand : Nat) : randChoice rand ([] : List UserRow) = none :=
  rfl

theorem randChoice_pos (rand : Nat) (l : List UserRow) (h : l ≠ []) :
    ∃ u ∈ l, randChoice rand l = some u := by
  have hlen : 0 < l.length := List.length_pos.mpr h
  have hidx : rand % l.length < l.length := Nat.mod_lt _ hlen
  refine ⟨l[rand % l.length], List.getElem_mem hidx, ?_⟩
  unfold randChoice
  exact List.getElem?_eq_getElem hidx

/-- C5 counterexample: dbC5 has two members in project 1; when the
Recommender call fails (recResult none) the resolver does not pick an
auto-assignee among memberships at all — get_best_assignee returns
None and the handler falls to the manual-selection list — whereas a
returned role with no holder (Ghost) does auto-pick a member.  The two
failure cases therefore take different fallbacks, refuting the claim
that a failed Recommender call falls back to random auto-assignment. -/
theorem c5_counterexample :
    get_best_assignee dbC5 "fix crash" (dbC5.get_project_roles 1) 1 none 0
        = none ∧
    process_task_deadline_resolve dbC5 1 "fix crash" none 0
        = AssigneeResolution.manualChoice
            [⟨1, 21, "Ada", some "Dev", some 1, false⟩,
             ⟨2, 22, "Ben", some "QA", some 1, false⟩] ∧
    dbC5.get_project_users 1 ≠ [] ∧
    get_best_assignee dbC5 "fix crash" (dbC5.get_project_roles 1) 1
        (some "Ghost") 0 = some 1 := by
  decide

/-- C5 amended: when the Recommender call fails the resolver returns
the manual-selection outcome listing all the project's membership
rows; only when the call succeeds with a role that has no current
holder does it fall back to picking a (pseudo-random) assignee among
all of the project's membership rows — the two cases take different
fallbacks. -/
theorem c5_amended (db : Database) (pid : Nat) (desc : String) (rand : Nat) :
    process_task_deadline_resolve db pid desc none rand
        = AssigneeResolution.manualChoice (db.get_project_users pid) ∧
    (∀ role, db.users.filter
          (fun u => u.project_id == some pid && u.role == some role) = [] →
        db.get_project_users pid ≠ [] →
        ∃ u ∈ db.get_project_users pid,
          get_best_assignee db desc (db.get_project_roles pid) pid
              (some role) rand = some u.id) := by
  constructor
  · rfl
  · intro role hhold hmem
    obtain ⟨u, hmemu, hru⟩ := randChoice_pos rand _ hmem
    have hru2 : randChoice rand
        (db.users.filter (fun u2 => u2.project_id == some pid)) = some u := hru
    refine ⟨u, hmemu, ?_⟩
    simp only [get_best_assignee, hhold, randChoice_nil, hru2]

/-- C5 witness: the amended statement evaluated on dbC5w — a failed
Recommender call yields the manual-selection outcome, and the role QA,
which has no holder, auto-picks the single member. -/
theorem c5_witness :
    process_task_deadline_resolve dbC5w 1 "deploy" none 3
        = AssigneeResolution.manualChoice (dbC5w.get_project_users 1) ∧
    (∃ u ∈ dbC5w.get_project_users 1,
      get_best_assignee dbC5w "deploy" (dbC5w.get_project_roles 1) 1
          (some "QA") 3 = some u.id) :=
  ⟨(c5_amended dbC5w 1 "deploy" 3).1,
   (c5_amended dbC5w 1 "deploy" 3).2 "QA" (by decide) (by decide)⟩

/-- C6: upcoming_tasks is the set of tasks selected by the deadline
query, and a task (with resolvable assignee and project joins) is
selected exactly when its status is not completed and its deadline
lies in the half-open window from now exclusive to now plus 24 hours
inclusive. -/
theorem c6_window (db : Database) (now : Nat) (t : TaskRow) (uid : Nat)
    (u : UserRow) (p : ProjectRow)
    (ha : t.assigned_to = some uid)
    (hu : db.users.find? (fun r => r.id == uid) = some u)
    (hp : db.projects.find? (fun r => r.id == t.project_id) = some p) :
    TaskScheduler.upcoming_tasks db now
        = db.tasks.filterMap (selectDue db now) ∧
    ((selectDue db now t).isSome
      ↔ (t.status ≠ "completed" ∧ now < t.deadline ∧
          t.deadline ≤ now + 86400)) := by
  refine ⟨rfl, ?_⟩
  unfold selectDue
  rw [ha]
  dsimp only
  rw [hu, hp]
  dsimp only
  constructor
  · intro h
    by_cases hc : t.status ≠ "completed" ∧ t.deadline ≤ now + 86400 ∧
        now < t.deadline
    · exact ⟨hc.1, hc.2.2, hc.2.1⟩
    · rw [if_neg hc] at h
      exact Bool.noConfusion h
  · intro hc
    rw [if_pos ⟨hc.1, hc.2.2, hc.2.1⟩]
    rfl

/-- C6 witness: at time 1000000, a task due exactly 24 hours later is
selected, one due one second after the boundary is not, and one whose
deadline is already past is not. -/
theorem c6_witness :
    (selectDue dbC6w 1000000
        ⟨5, 1, "x", 1086400, some 1, "pending", 0⟩).isSome ∧
    ¬ (selectDue dbC6w 1000000
        ⟨6, 1, "y", 1086401, some 1, "pending", 0⟩).isSome ∧
    ¬ (selectDue dbC6w 1000000
        ⟨7, 1, "z", 999999, some 1, "pending", 0⟩).isSome := by
  refine ⟨?_, ?_, ?_⟩
  · exact (c6_window dbC6w 1000000 ⟨5, 1, "x", 1086400, some 1, "pending", 0⟩
      1 ⟨1, 40, "Dee", some "Dev", some 1, true⟩ ⟨1, "Sig", "SSSSSSSS", 16⟩
      rfl rfl rfl).2.mpr (by decide)
  · intro h
    have hc := (c6_window dbC6w 1000000
      ⟨6, 1, "y", 1086401, some 1, "pending", 0⟩
      1 ⟨1, 40, "Dee", some "Dev", some 1, true⟩ ⟨1, "Sig", "SSSSSSSS", 16⟩
      rfl rfl rfl).2.mp h
    exact absurd hc.2.2 (by decide)
  · intro h
    have hc := (c6_window dbC6w 1000000
      ⟨7, 1, "z", 999999, some 1, "pending", 0⟩
      1 ⟨1, 40, "Dee", some "Dev", some 1, true⟩ ⟨1, "Sig", "SSSSSSSS", 16⟩
      rfl rfl rfl).2.mp h
    exact absurd hc.2.1 (by decide)

theorem parseDeadline_valid (s : String) (d : Datetime)
    (h : parseDeadline s = some d) :
    1 ≤ d.year ∧ 1 ≤ d.month ∧ d.month ≤ 12 ∧ 1 ≤ d.day ∧
    d.day ≤ daysInMonth d.year d.month ∧ d.hour ≤ 23 ∧ d.minute ≤ 59 := by
  unfold parseDeadline at h
  split at h
  · dsimp only at h
    split at h
    · split at h
      · rename_i hrange
        obtain rfl := Option.some.inj h
        exact hrange
      · exact Option.noConfusion h
    · exact Option.noConfusion h
  · exact Option.noConfusion h

/-- C7 counterexample: the text 01.01.2020 00:00 parses and represents
a moment strictly before the reference wall-clock time 12.10.2026
00:00, yet the deadline step advances with it instead of re-prompting
— the handler never compares the parsed value against the clock. -/
theorem c7_counterexample :
    process_task_deadline_step "01.01.2020 00:00"
        = DeadlineStepResult.advanced ⟨2020, 1, 1, 0, 0⟩ ∧
    Datetime.isBefore ⟨2020, 1, 1, 0, 0⟩ ⟨2026, 10, 12, 0, 0⟩ = true := by
  constructor
  · decide
  · decide

/-- C7 amended: the deadline step advances exactly when the text
parses as a valid zero-padded day.month.year hour:minute calendar
value (the parsed components lie in their calendar ranges), and
re-prompts exactly when parsing fails; no check that the moment is in
the future is performed. -/
theorem c7_amended (text : String) :
    (∀ d, process_task_deadline_step text = DeadlineStepResult.advanced d →
      parseDeadline text = some d ∧
      1 ≤ d.year ∧ 1 ≤ d.month ∧ d.month ≤ 12 ∧ 1 ≤ d.day ∧
      d.day ≤ daysInMonth d.year d.month ∧ d.hour ≤ 23 ∧ d.minute ≤ 59) ∧
    (parseDeadline text = none ↔
      process_task_deadline_step text = DeadlineStepResult.reprompt) := by
  constructor
  · intro d hadv
    unfold process_task_deadline_step at hadv
    cases hpt : parseDeadline text with
    | none =>
        rw [hpt] at hadv
        exact DeadlineStepResult.noConfusion hadv
    | some d2 =>
        rw [hpt] at hadv
        obtain rfl : d2 = d := DeadlineStepResult.advanced.inj hadv
        exact ⟨rfl, parseDeadline_valid text d2 hpt⟩
  · constructor
    · intro hpt
      unfold process_task_deadline_step
      rw [hpt]
    · intro hstep
      cases hpt : parseDeadline text with
      | none => rfl
      | some d2 =>
          unfold process_task_deadline_step at hstep
          rw [hpt] at hstep
          exact DeadlineStepResult.noConfusion hstep

/-- C7 witness: the amended statement evaluated on a parseable text —
it advances with the parsed components, which lie in calendar ranges —
and on garbage text, which re-prompts. -/
theorem c7_witness :
    (parseDeadline "31.12.2030 15:45" = some ⟨2030, 12, 31, 15, 45⟩ ∧
      1 ≤ 2030 ∧ 1 ≤ 12 ∧ 12 ≤ 12 ∧ 1 ≤ 31 ∧
      31 ≤ daysInMonth 2030 12 ∧ 15 ≤ 23 ∧ 45 ≤ 59) ∧
    process_task_deadline_step "tomorrow" = DeadlineStepResult.reprompt :=
  ⟨(c7_amended "31.12.2030 15:45").1 ⟨2030, 12, 31, 15, 45⟩ (by decide),
   (c7_amended "tomorrow").2.mp (by decide)⟩

/-- C8: add_user is idempotent — calling it a second time with the
identical (telegram id, project id) arguments returns exactly the pair
the first call returned: the same membership id, with the database
unchanged from the state after the first call, so no duplicate row is
created and the existing row is untouched. -/
theorem c8_add_user_idempotent (db : Database) (tid : Nat) (nm : String)
    (pid : Nat) (role : Option String) :
    (db.add_user tid nm (some pid) role).fst.add_user tid nm (some pid) role
      = db.add_user tid nm (some pid) role := by
  cases hf : db.users.find?
      (fun r => r.telegram_id == tid && sqlEqN r.project_id (some pid)) with
  | some r =>
      have h1 : db.add_user tid nm (some pid) role = (db, r.id) := by
        unfold Database.add_user
        rw [hf]
      rw [h1]
      exact h1
  | none =>
      have h1 : db.add_user tid nm (some pid) role
          = ({ db with
                users := db.users ++
                  [⟨db.next_user_id, tid, nm, role, some pid, false⟩],
                next_user_id := db.next_user_id + 1 }, db.next_user_id) := by
        unfold Database.add_user
        rw [hf]
      rw [h1]
      have h2 : (db.users ++
            [(⟨db.next_user_id, tid, nm, role, some pid, false⟩ : UserRow)]).find?
          (fun r => r.telegram_id == tid && sqlEqN r.project_id (some pid))
            = some ⟨db.next_user_id, tid, nm, role, some pid, false⟩ := by
        rw [List.find?_append, hf, Option.none_or]
        exact List.find?_cons_of_pos _ (by simp [sqlEqN])
      unfold Database.add_user
      rw [h2]

/-- C9: the complete_task callback updates the carried task id to
status completed unconditionally — the database effect is identical
for any two callers, every existing task row with the carried id is
rewritten to completed (whatever its previous status or project), and
every other task row is untouched; no assignment, membership or
pending-status check guards the write. -/
theorem c9_complete_task_unconditional (db : Database) (task_id ca cb : Nat)
    (t : TaskRow) :
    complete_task db task_id ca = complete_task db task_id cb ∧
    (t ∈ db.tasks → t.id = task_id →
      ({ t with status := "completed" } : TaskRow)
        ∈ (complete_task db task_id ca).tasks) ∧
    (t ∈ db.tasks → t.id ≠ task_id →
      t ∈ (complete_task db task_id ca).tasks) := by
  refine ⟨rfl, ?_, ?_⟩
  · intro hmem hid
    have hmap := List.mem_map_of_mem
      (fun t2 => if t2.id == task_id then
        ({ t2 with status := "completed" } : TaskRow) else t2) hmem
    have heq : (if t.id == task_id then
        ({ t with status := "completed" } : TaskRow) else t)
        = { t with status := "completed" } := by
      simp [hid]
    exact heq ▸ hmap
  · intro hmem hid
    have hmap := List.mem_map_of_mem
      (fun t2 => if t2.id == task_id then
        ({ t2 with status := "completed" } : TaskRow) else t2) hmem
    have heq : (if t.id == task_id then
        ({ t with status := "completed" } : TaskRow) else t) = t := by
      simp [hid]
    exact heq ▸ hmap

/-- C9 witness: completing task 1 of dbC9w has the same effect for two
different callers, and turns the pending task into a completed one. -/
theorem c9_witness :
    complete_task dbC9w 1 999 = complete_task dbC9w 1 1000 ∧
    ({ id := 1, project_id := 1, description := "ship build",
       deadline := 500, assigned_to := some 1, status := "completed",
       created_at := 0 } : TaskRow) ∈ (complete_task dbC9w 1 999).tasks :=
  ⟨(c9_complete_task_unconditional dbC9w 1 999 1000
      ⟨1, 1, "ship build", 500, some 1, "pending", 0⟩).1,
   (c9_complete_task_unconditional dbC9w 1 999 1000
      ⟨1, 1, "ship build", 500, some 1, "pending", 0⟩).2.1 (by decide) rfl⟩

/-- C10: get_user returns the first membership row of the telegram id
in rowid order, and both the create_task and delete_project callbacks
resolve their target project and their manager check from that first
row's project — even for a user whose active membership (hactive) lies
in a different project, which these handlers never consult. -/
theorem c10_first_row_resolution (db : Database) (tid : Nat) (u : UserRow)
    (paId pbId : Nat) (pa : ProjectRow)
    (hu : db.get_user tid = some u)
    (hup : u.project_id = some paId)
    (hpa : db.get_project_by_id (some paId) = some pa)
    (hactive : ∃ r ∈ db.users, r.telegram_id = tid ∧ r.is_active = true ∧
        r.project_id = some pbId)
    (hne : pbId ≠ paId) :
    (∀ (pre post : List UserRow) (r : UserRow),
      r.telegram_id = tid → (∀ x ∈ pre, x.telegram_id ≠ tid) →
      Database.get_user { db with users := pre ++ r :: post } tid = some r) ∧
    (cb_create_task db tid = if pa.manager_id == tid then
        CreateTaskOutcome.promptDescription pa.id
      else CreateTaskOutcome.denied) ∧
    (cb_delete_project db tid = if pa.manager_id == tid then
        DeleteProjectOutcome.confirmDeletion pa.id pa.name
      else DeleteProjectOutcome.denied) := by
  refine ⟨?_, ?_, ?_⟩
  · intro pre post r hr hpre
    unfold Database.get_user
    dsimp only
    rw [List.find?_append]
    have hpre2 : pre.find? (fun x => x.telegram_id == tid) = none :=
      List.find?_eq_none.mpr (fun x hx => by simp [hpre x hx])
    rw [hpre2, Option.none_or]
    exact List.find?_cons_of_pos _ (by simp [hr])
  · unfold cb_create_task
    rw [hu]
    dsimp only
    rw [hup, hpa]
  · unfold cb_delete_project
    rw [hu]
    dsimp only
    rw [hup, hpa]

/-- C10 witness: in dbC10w user 50 manages project 1 (their first
membership row) but is active in project 2; both callbacks resolve
project 1 and authorize against it. -/
theorem c10_witness :
    cb_create_task dbC10w 50 = CreateTaskOutcome.promptDescription 1 ∧
    cb_delete_project dbC10w 50
      = DeleteProjectOutcome.confirmDeletion 1 "One" := by
  have h := c10_first_row_resolution dbC10w 50
    ⟨1, 50, "Fay", some "Manager", some 1, false⟩ 1 2
    ⟨1, "One", "EEEEEEEE", 50⟩ (by decide) rfl (by decide)
    ⟨⟨2, 50, "Fay", some "Dev", some 2, true⟩, by decide, rfl, rfl, rfl⟩
    (by decide)
  constructor
  · rw [h.2.1]
    decide
  · rw [h.2.2]
    decide
